import Mathlib

/-!
# Verification of the Speedy search-overlay controller

A shallow embedding of the React component `src/components/SearchBar/SearchBar.tsx`
(and its hook `useKeyboardShortcut.ts`) of the Speedy quick-launcher, together
with proofs about its state machine: visibility toggling, query debouncing,
asynchronous search requests, keyboard-driven selection, and activation
dispatch.

The component's five pieces of React state (`isVisible`, `searchQuery`,
`results`, `isSearching`, `selectedIndex`) become the `OverlayState`
structure.  The surrounding runtime artefacts — the armed debounce timer, the
set of in-flight `search` invocations, and the log of external Tauri commands
issued (`search`, `open_path`, `launch_app`) — become the `Sys` structure, and
every source event handler becomes a pure transition function on `Sys`.
Asynchronous completions are explicit events, so out-of-order responses are
expressible.  The 200 ms maturation condition of the debounce timer is modelled
separately, as a timed trace semantics (`debounceFires`).
-/

namespace Speedy

/-- The `type` field of `SearchResult` in SearchBar.tsx:
`'file' | 'folder' | 'app'`. -/
inductive FileKind where
  | file
  | folder
  | app
deriving DecidableEq, Repr

/-- The `SearchResult` record produced by the engine (SearchBar.tsx lines 7-12):
`path`, `name`, `type`, and an optional `score`.  The score (a JS number in
`[0,1]`) is modelled as a rational. -/
structure SearchResult where
  path : String
  name : String
  type : FileKind
  score : Option ℚ
deriving DecidableEq, Repr

/-- The five React state variables of the `SearchBar` component
(SearchBar.tsx lines 15-19).  `selectedIndex` is a JS number that ranges over
`-1, 0, 1, ...`, hence an `Int`. -/
structure OverlayState where
  isVisible : Bool
  searchQuery : String
  results : List SearchResult
  isSearching : Bool
  selectedIndex : Int
deriving DecidableEq, Repr

/-- The initial state set by the `useState` initialisers:
`false`, `''`, `[]`, `false`, `-1`. -/
def initOverlay : OverlayState :=
  { isVisible := false
    searchQuery := ""
    results := []
    isSearching := false
    selectedIndex := -1 }

/-- External Tauri commands invoked by the component: `invoke('search', ...)`,
`invoke('open_path', ...)`, `invoke('launch_app', ...)`. -/
inductive ExternalOp where
  | search (query : String)
  | openPath (path : String)
  | launchApp (path : String)
deriving DecidableEq, Repr

/-- Whether an external operation is a `search` engine request. -/
def ExternalOp.isSearch : ExternalOp → Bool
  | .search _ => true
  | _ => false

end Speedy

namespace Speedy

/-- JS `String.prototype.trim` (the source tests `searchQuery.trim() === ''`):
removes leading and trailing whitespace.  Defined over the underlying
character list so that it evaluates by kernel reduction. -/
def jsTrim (s : String) : String :=
  ⟨((s.data.dropWhile Char.isWhitespace).reverse.dropWhile Char.isWhitespace).reverse⟩

/-- JS `Math.round` on exact (rational) numbers: rounds to the nearest
integer, halves toward positive infinity, i.e. `⌊x + 1/2⌋`. -/
def jsRound (q : ℚ) : ℤ := ⌊q + 1/2⌋

/-- Full system state: the component state plus the runtime artefacts the
source manipulates — `debounceTimer` (holding, when armed, the query captured
by the `setTimeout` closure), the in-flight `search` invocations awaiting
resolution (tagged by issue order), a fresh-tag counter, the chronological log
of external commands invoked, and the number of `alert` dialogs shown. -/
structure Sys where
  ov : OverlayState
  timer : Option String
  pending : List (Nat × String)
  nextId : Nat
  log : List ExternalOp
  alerts : Nat
deriving DecidableEq, Repr

/-- System state at component mount. -/
def initSys : Sys :=
  { ov := initOverlay
    timer := none
    pending := []
    nextId := 0
    log := []
    alerts := 0 }

/-- Which Tauri command `handleResultClick` (SearchBar.tsx lines 113-128)
invokes for a result: `launch_app` when `result.type === 'app'`, and
`open_path` otherwise (files and folders). -/
def activationOp (r : SearchResult) : ExternalOp :=
  if r.type = FileKind.app then ExternalOp.launchApp r.path
  else ExternalOp.openPath r.path

/-- Handler `handleResultClick` (SearchBar.tsx lines 113-128): invoke `launch_app` or
`open_path` by kind; on success (`ok = true`) set `isVisible` to `false`; on
failure log the error and show an `alert` — no state variable is written. -/
def handleResultClick (s : Sys) (r : SearchResult) (ok : Bool) : Sys :=
  let s' : Sys := { s with log := s.log ++ [activationOp r] }
  if ok then
    { s' with ov := { s'.ov with isVisible := false } }
  else
    { s' with alerts := s'.alerts + 1 }

/-- Function `performSearch` (SearchBar.tsx lines 39-50) as a single request/response:
a query shorter than 2 characters returns `[]` without calling the engine;
otherwise the `search` command is invoked and an engine failure (`none`) is
caught and mapped to `[]`.  Returns the result list together with the list of
external commands invoked. -/
def performSearch (engine : String → Option (List SearchResult)) (query : String) :
    List SearchResult × List ExternalOp :=
  if query.length < 2 then ([], [])
  else
    match engine query with
    | some rs => (rs, [ExternalOp.search query])
    | none => ([], [ExternalOp.search query])

/-- The input `onChange` handler followed by the debounce effect
(SearchBar.tsx lines 52-81, dependency `[searchQuery]`): `setSearchQuery(q)`
re-renders only when the value changed; the effect then clears any armed
timer, and either clears `results`/`selectedIndex` (trimmed query empty) or
arms a fresh 200 ms timer whose closure captures the new query. -/
def queryChange (s : Sys) (q : String) : Sys :=
  if q = s.ov.searchQuery then s
  else if jsTrim q = "" then
    { s with ov := { s.ov with searchQuery := q, results := [], selectedIndex := -1 }
             timer := none }
  else
    { s with ov := { s.ov with searchQuery := q }
             timer := some q }

/-- Maturation of the armed debounce timer (the `setTimeout` callback,
SearchBar.tsx lines 63-74): set `isSearching` to `true` and run
`performSearch` on the captured query.  A query shorter than 2 characters
resolves at once to `[]` (no engine call), after which the `finally` clause
clears `isSearching`; otherwise the `search` command is issued and stays
outstanding until its completion event.  `selectedIndex` is not written on
either path. -/
def fireTimer (s : Sys) : Sys :=
  match s.timer with
  | none => s
  | some cq =>
    if cq.length < 2 then
      { s with timer := none
               ov := { s.ov with results := [], isSearching := false } }
    else
      { s with timer := none
               ov := { s.ov with isSearching := true }
               pending := s.pending ++ [(s.nextId, cq)]
               nextId := s.nextId + 1
               log := s.log ++ [ExternalOp.search cq] }

/-- Resolution of an outstanding `search` invocation (the continuation after
`await performSearch(searchQuery)`, SearchBar.tsx lines 65-73): the response
(`none` models a rejection, caught and mapped to `[]`) is written to `results`
unconditionally — the source performs no staleness check against the current
query — and `finally` clears `isSearching`.  `selectedIndex` is not reset. -/
def completeRequest (s : Sys) (id : Nat) (resp : Option (List SearchResult)) : Sys :=
  match s.pending.find? (fun p => p.1 = id) with
  | none => s
  | some _ =>
    { s with pending := s.pending.filter (fun p => p.1 ≠ id)
             ov := { s.ov with results := resp.getD [], isSearching := false } }

/-- Keyboard events handled by `handleKeyDown` (SearchBar.tsx lines 84-98).
`enter` carries the eventual outcome of the activation it may trigger. -/
inductive Key where
  | escape
  | arrowDown
  | arrowUp
  | enter (ok : Bool)
deriving DecidableEq, Repr

/-- Handler `handleKeyDown` (SearchBar.tsx lines 84-98): ignored while the overlay is
hidden; `Escape` sets `isVisible` to `false` (and nothing else); `ArrowDown`
sets `selectedIndex` to `min(prev + 1, results.length - 1)`; `ArrowUp` sets it
to `max(prev - 1, -1)`; `Enter` calls `handleResultClick(results[selectedIndex])`
only when `selectedIndex >= 0` and `results[selectedIndex]` exists. -/
def handleKeyDown (s : Sys) (k : Key) : Sys :=
  if s.ov.isVisible = false then s
  else
    match k with
    | .escape =>
      { s with ov := { s.ov with isVisible := false } }
    | .arrowDown =>
      { s with ov := { s.ov with
          selectedIndex := min (s.ov.selectedIndex + 1) ((s.ov.results.length : Int) - 1) } }
    | .arrowUp =>
      { s with ov := { s.ov with
          selectedIndex := max (s.ov.selectedIndex - 1) (-1) } }
    | .enter ok =>
      if 0 ≤ s.ov.selectedIndex then
        match s.ov.results.get? s.ov.selectedIndex.toNat with
        | some r => handleResultClick s r ok
        | none => s
      else s

/-- Transition `toggleVisibility` (SearchBar.tsx lines 24-29), invoked by the
Ctrl+Space shortcut: flip `isVisible` and reset `searchQuery`, `results` and
`selectedIndex` to their initial values.  Setting the query to `''` re-runs
the debounce effect when the query changed, which clears any armed timer. -/
def toggleVisibility (s : Sys) : Sys :=
  let ov' := { s.ov with
    isVisible := !s.ov.isVisible
    searchQuery := ""
    results := ([] : List SearchResult)
    selectedIndex := (-1 : Int) }
  if s.ov.searchQuery = "" then { s with ov := ov' }
  else { s with ov := ov', timer := none }

/-- The discrete events driving the controller: a query edit, the maturation
of the armed debounce timer, the resolution of an outstanding search request
(`none` = rejection), a key-down, and the Ctrl+Space toggle. -/
inductive Ev where
  | input (q : String)
  | timer
  | complete (id : Nat) (resp : Option (List SearchResult))
  | key (k : Key)
  | toggle

/-- One transition of the controller. -/
def step (s : Sys) : Ev → Sys
  | .input q => queryChange s q
  | .timer => fireTimer s
  | .complete id resp => completeRequest s id resp
  | .key k => handleKeyDown s k
  | .toggle => toggleVisibility s

/-- Run the controller from `s` over a list of events. -/
def run (s : Sys) (evs : List Ev) : Sys := evs.foldl step s

/-- A sample file result, delivered by the engine in concrete traces. -/
def rA : SearchResult :=
  { path := "/docs/a.txt", name := "a.txt", type := FileKind.file, score := none }

/-- A second, distinct sample result. -/
def rB : SearchResult :=
  { path := "/docs/b.txt", name := "b.txt", type := FileKind.file, score := none }

/-- Timed semantics of the debounce effect (SearchBar.tsx lines 52-81) for a
run of query edits: the input is the list of `(time, query)` changes in
chronological order.  Each change clears the previously armed timer
(`clearTimeout`), and — when the trimmed query is non-empty — arms a fresh
200 ms timer capturing the query.  A timer armed at time `t` matures exactly
when no further change occurs before `t + 200`.  Returns the captured queries
of the timers that mature, in order. -/
def debounceFires : List (Nat × String) → List String
  | [] => []
  | (t, q) :: rest =>
    (if jsTrim q = "" then []
     else
       match rest with
       | [] => [q]
       | (t', _) :: _ => if t + 200 ≤ t' then [q] else []) ++ debounceFires rest

/-- The engine requests actually issued for a run of query edits: a matured
timer calls `performSearch`, which invokes the `search` command only when the
captured query has at least 2 characters (SearchBar.tsx line 40). -/
def issuedRequests (changes : List (Nat × String)) : List String :=
  (debounceFires changes).filter (fun q => 2 ≤ q.length)

/-- The results list is rendered iff `results.length > 0`
(SearchBar.tsx line 157). -/
def showsResults (s : Sys) : Bool := decide (s.ov.results ≠ [])

/-- The "No results found" row is rendered iff `!isSearching`,
`results.length === 0` and `searchQuery.length >= 2`
(SearchBar.tsx line 196). -/
def showsNoMatch (s : Sys) : Bool :=
  !s.ov.isSearching && decide (s.ov.results = []) && decide (2 ≤ s.ov.searchQuery.length)

/-- The selection-range invariant claimed by the spec:
`-1 ≤ selection < len(results)`. -/
def selectionInv (s : Sys) : Prop :=
  -1 ≤ s.ov.selectedIndex ∧ s.ov.selectedIndex < (s.ov.results.length : Int)

instance (s : Sys) : Decidable (selectionInv s) := by
  unfold selectionInv; infer_instance

/-- The score label rendered for a result (SearchBar.tsx lines 181-183):
the JSX `result.score && <span>…{Math.round(result.score * 100)}%…</span>`
renders the span only when `result.score` is truthy — present AND nonzero,
since the JS number `0` is falsy.  `some n` models the rendered label `n%`. -/
def scoreLabel (score : Option ℚ) : Option ℤ :=
  match score with
  | none => none
  | some v => if v = 0 then none else some (jsRound (v * 100))

/-- Modelled from the spec's words, for comparison with `scoreLabel`: the
claim reads "the label is shown if and only if the score is present
(including a present score whose value is 0)". -/
def specScoreLabel (score : Option ℚ) : Option ℤ :=
  score.map (fun v => jsRound (v * 100))

/-- Events whose payload strings are all shorter than 2 characters (for the
minimum-query-length claim, only query edits carry a query string). -/
def shortEv : Ev → Bool
  | .input q => decide (q.length < 2)
  | _ => true

/-- Invariant carried through runs consisting of short-query events: the
results stay empty, nothing is in flight, any armed timer captured a short
query, the current query is short, and no `search` command was ever issued. -/
def shortInv (s : Sys) : Prop :=
  s.ov.results = [] ∧ s.pending = [] ∧ s.ov.isSearching = false ∧
    s.ov.searchQuery.length < 2 ∧
    (∀ q, s.timer = some q → q.length < 2) ∧
    (∀ op ∈ s.log, op.isSearch = false)

/-- Event trace for the stale-response race: open the overlay, type `"abc"`,
let its debounce timer mature (request 0 issued), type `"abcd"`, let its timer
mature (request 1 issued), then deliver the `"abcd"` response first and the
superseded `"abc"` response last. -/
def staleTrace : List Ev :=
  [Ev.toggle, Ev.input "abc", Ev.timer, Ev.input "abcd", Ev.timer,
   Ev.complete 1 (some [rB]), Ev.complete 0 (some [rA])]

/-- Event trace reaching a state whose selection index equals the length of
the (shorter, refreshed) result list: search `"ab"` returns two results,
ArrowDown twice selects index 1, then a search for `"abc"` completes with a
single result while the selection is left untouched. -/
def shrinkTrace : List Ev :=
  [Ev.toggle, Ev.input "ab", Ev.timer, Ev.complete 0 (some [rA, rB]),
   Ev.key Key.arrowDown, Ev.key Key.arrowDown,
   Ev.input "abc", Ev.timer, Ev.complete 1 (some [rA])]

/-- Event trace whose final event is a request completion replacing a
non-empty result list while the selection index is 0. -/
def replaceTrace : List Ev :=
  [Ev.toggle, Ev.input "ab", Ev.timer, Ev.complete 0 (some [rA, rB]),
   Ev.key Key.arrowDown, Ev.input "abc", Ev.timer, Ev.complete 1 (some [rB, rA])]

/-- Event trace that presses Escape while the overlay holds a query, a
result list and a selection. -/
def escapeTrace : List Ev :=
  [Ev.toggle, Ev.input "ab", Ev.timer, Ev.complete 0 (some [rA]),
   Ev.key Key.arrowDown, Ev.key Key.escape]

/-- C1: the code has no staleness guard, contradicting the required
supersession: after the query changes from `"abc"` to `"abcd"` and the
`"abcd"` response `[rB]` has been applied, the late response `[rA]` of the
superseded `"abc"` request overwrites `results`, even though the current
query is still `"abcd"`.  The log confirms both requests were issued, the
`"abc"` one first. -/
theorem stale_response_overwrites_newer_query :
    (run initSys staleTrace).ov.searchQuery = "abcd" ∧
    (run initSys staleTrace).log = [ExternalOp.search "abc", ExternalOp.search "abcd"] ∧
    (run initSys staleTrace).ov.results = [rA] ∧ rA ≠ rB := by decide

/-- C2, counterexample: a reachable state violating
`-1 ≤ selection < len(results)` — after `shrinkTrace` the selection index is
1 while the result list has length 1, because the completed search replaced
`results` without resetting the selection. -/
theorem selection_out_of_range_reachable :
    (run initSys shrinkTrace).ov.selectedIndex = 1 ∧
    (run initSys shrinkTrace).ov.results.length = 1 ∧
    ¬ selectionInv (run initSys shrinkTrace) := by decide

/-- C2, amended: the arrow-key transitions themselves are safe — ArrowDown
sets `selection = min(selection + 1, len(results) - 1)` and ArrowUp sets
`selection = max(selection - 1, -1)` while the overlay is visible, and both
preserve `-1 ≤ selection < len(results)` whenever it already holds; the
range can still be escaped, but only through result replacement
(`selection_out_of_range_reachable`), never through arrow keys. -/
theorem arrow_keys_preserve_selection_range (s : Sys) (h : selectionInv s) :
    selectionInv (handleKeyDown s Key.arrowDown) ∧
    selectionInv (handleKeyDown s Key.arrowUp) ∧
    (s.ov.isVisible = true →
      (handleKeyDown s Key.arrowDown).ov.selectedIndex
        = min (s.ov.selectedIndex + 1) ((s.ov.results.length : Int) - 1) ∧
      (handleKeyDown s Key.arrowUp).ov.selectedIndex
        = max (s.ov.selectedIndex - 1) (-1)) := by
  unfold selectionInv at h
  refine ⟨?_, ?_, ?_⟩
  · by_cases hv : s.ov.isVisible = false
    · simpa [handleKeyDown, hv, selectionInv] using h
    · simp [handleKeyDown, hv, selectionInv]; omega
  · by_cases hv : s.ov.isVisible = false
    · simpa [handleKeyDown, hv, selectionInv] using h
    · simp [handleKeyDown, hv, selectionInv]; omega
  · intro hvis
    have hv : ¬ (s.ov.isVisible = false) := by simp [hvis]
    exact ⟨by simp [handleKeyDown, hv], by simp [handleKeyDown, hv]⟩

/-- Closed witness for `arrow_keys_preserve_selection_range` at the initial
state. -/
theorem arrow_keys_preserve_selection_range_witness :
    selectionInv (handleKeyDown initSys Key.arrowDown) ∧
    selectionInv (handleKeyDown initSys Key.arrowUp) ∧
    (initSys.ov.isVisible = true →
      (handleKeyDown initSys Key.arrowDown).ov.selectedIndex
        = min (initSys.ov.selectedIndex + 1) ((initSys.ov.results.length : Int) - 1) ∧
      (handleKeyDown initSys Key.arrowUp).ov.selectedIndex
        = max (initSys.ov.selectedIndex - 1) (-1)) :=
  arrow_keys_preserve_selection_range initSys (by decide)

/-- C3, counterexample: the final event of `replaceTrace` is a request
completion that replaces a non-empty `results` with the response
`[rB, rA]`, yet the selection index stays 0 instead of being reset to −1. -/
theorem completion_does_not_reset_selection :
    run initSys replaceTrace
      = completeRequest (run initSys (replaceTrace.take 7)) 1 (some [rB, rA]) ∧
    (run initSys (replaceTrace.take 7)).ov.results = [rA, rB] ∧
    (run initSys (replaceTrace.take 7)).ov.selectedIndex = 0 ∧
    (run initSys replaceTrace).ov.results = [rB, rA] ∧
    (run initSys replaceTrace).ov.selectedIndex = 0 := by decide

/-- C3, amended: request completion never touches the selection index; the
selection (together with `results`) is reset only when the query changes to a
trim-empty value, and by the visibility toggle. -/
theorem selection_reset_only_on_clear_and_toggle (s : Sys) (id : Nat)
    (resp : Option (List SearchResult)) (q : String)
    (hq : jsTrim q = "") (hne : q ≠ s.ov.searchQuery) :
    (completeRequest s id resp).ov.selectedIndex = s.ov.selectedIndex ∧
    (queryChange s q).ov.results = [] ∧
    (queryChange s q).ov.selectedIndex = -1 ∧
    (toggleVisibility s).ov.selectedIndex = -1 := by
  refine ⟨?_, ?_, ?_, ?_⟩
  · unfold completeRequest
    cases s.pending.find? (fun p => p.1 = id) <;> simp
  · simp [queryChange, hne, hq]
  · simp [queryChange, hne, hq]
  · unfold toggleVisibility
    by_cases h0 : s.ov.searchQuery = "" <;> simp [h0]

/-- Closed witness for `selection_reset_only_on_clear_and_toggle`, with the
query changing to the trim-empty string `" "`. -/
theorem selection_reset_only_on_clear_and_toggle_witness :
    (completeRequest initSys 0 none).ov.selectedIndex = initSys.ov.selectedIndex ∧
    (queryChange initSys " ").ov.results = [] ∧
    (queryChange initSys " ").ov.selectedIndex = -1 ∧
    (toggleVisibility initSys).ov.selectedIndex = -1 :=
  selection_reset_only_on_clear_and_toggle initSys 0 none " " (by decide) (by decide)

/-- C4, counterexample: Escape closes the overlay but resets nothing — after
`escapeTrace` the overlay is hidden while the query is still `"ab"`, the
result list still `[rA]` and the selection still 0, instead of their initial
values `""`, `[]`, −1. -/
theorem escape_does_not_reset_state :
    (run initSys escapeTrace).ov.isVisible = false ∧
    (run initSys escapeTrace).ov.searchQuery = "ab" ∧
    (run initSys escapeTrace).ov.results = [rA] ∧
    (run initSys escapeTrace).ov.selectedIndex = 0 := by decide

/-- C4, amended: of the three closing operations only the toggle resets
`query`, `results` and `selection` to their initial values; Escape and a
successful activation merely set `isVisible` to `false` and leave every other
state variable unchanged (the reset then happens on the next toggle). -/
theorem closing_operations_effects (s : Sys) (r : SearchResult)
    (hv : s.ov.isVisible = true) :
    (toggleVisibility s).ov.isVisible = false ∧
    (toggleVisibility s).ov.searchQuery = "" ∧
    (toggleVisibility s).ov.results = [] ∧
    (toggleVisibility s).ov.selectedIndex = -1 ∧
    (handleKeyDown s Key.escape).ov = { s.ov with isVisible := false } ∧
    (handleResultClick s r true).ov = { s.ov with isVisible := false } := by
  have hv' : ¬ (s.ov.isVisible = false) := by simp [hv]
  refine ⟨?_, ?_, ?_, ?_, ?_, ?_⟩
  · unfold toggleVisibility
    by_cases h0 : s.ov.searchQuery = "" <;> simp [h0, hv]
  · unfold toggleVisibility
    by_cases h0 : s.ov.searchQuery = "" <;> simp [h0]
  · unfold toggleVisibility
    by_cases h0 : s.ov.searchQuery = "" <;> simp [h0]
  · unfold toggleVisibility
    by_cases h0 : s.ov.searchQuery = "" <;> simp [h0]
  · simp [handleKeyDown, hv']
  · rfl

/-- Closed witness for `closing_operations_effects` at the state reached by
one toggle (overlay open, everything else initial). -/
theorem closing_operations_effects_witness :
    (toggleVisibility (run initSys [Ev.toggle])).ov.isVisible = false ∧
    (toggleVisibility (run initSys [Ev.toggle])).ov.searchQuery = "" ∧
    (toggleVisibility (run initSys [Ev.toggle])).ov.results = [] ∧
    (toggleVisibility (run initSys [Ev.toggle])).ov.selectedIndex = -1 ∧
    (handleKeyDown (run initSys [Ev.toggle]) Key.escape).ov
      = { (run initSys [Ev.toggle]).ov with isVisible := false } ∧
    (handleResultClick (run initSys [Ev.toggle]) rA true).ov
      = { (run initSys [Ev.toggle]).ov with isVisible := false } :=
  closing_operations_effects (run initSys [Ev.toggle]) rA (by decide)

/-- Helper: along a run of query edits in which every change arrives within
200 ms of the previous one, every timer but the last one is cleared before it
can mature, so the matured timers are those of the final change alone. -/
theorem debounceFires_rapid (cs : List (Nat × String)) : ∀ c : Nat × String,
    List.Chain' (fun a b => b.1 < a.1 + 200) (c :: cs) →
    debounceFires (c :: cs) = debounceFires [(c :: cs).getLast (List.cons_ne_nil c cs)] := by
  induction cs with
  | nil => intro c _; rfl
  | cons c' cs ih =>
    intro c h
    rw [List.chain'_cons] at h
    obtain ⟨hlt, h'⟩ := h
    obtain ⟨t, q⟩ := c
    obtain ⟨t', q'⟩ := c'
    have hhead : debounceFires ((t, q) :: (t', q') :: cs) = debounceFires ((t', q') :: cs) := by
      have hno : ¬ (t + 200 ≤ t') := by omega
      by_cases h0 : jsTrim q = "" <;> simp [debounceFires, h0, hno]
    rw [hhead, ih (t', q') h']
    congr 1

/-- C5: for a rapid sequence of query edits — every edit arriving strictly
within the 200 ms debounce window of the previous one — at most one engine
request is issued, and any request that is issued carries the final query
value of the sequence. -/
theorem rapid_edits_issue_single_request (c : Nat × String) (cs : List (Nat × String))
    (h : List.Chain' (fun a b => b.1 < a.1 + 200) (c :: cs)) :
    (issuedRequests (c :: cs)).length ≤ 1 ∧
    ∀ q ∈ issuedRequests (c :: cs), q = ((c :: cs).getLast (List.cons_ne_nil c cs)).2 := by
  unfold issuedRequests
  rw [debounceFires_rapid cs c h]
  rcases hlast : (c :: cs).getLast (List.cons_ne_nil c cs) with ⟨t, q⟩
  by_cases h0 : jsTrim q = "" <;> by_cases h2 : 2 ≤ q.length <;>
    simp [debounceFires, h0, h2]

/-- Closed witness for `rapid_edits_issue_single_request`: three edits 0 ms,
100 ms and 150 ms after the start; only `"abc"`, the final value, is
requested. -/
theorem rapid_edits_issue_single_request_witness :
    (issuedRequests [(0, "a"), (100, "ab"), (150, "abc")]).length ≤ 1 ∧
    ∀ q ∈ issuedRequests [(0, "a"), (100, "ab"), (150, "abc")], q = "abc" := by
  have h := rapid_edits_issue_single_request (0, "a") [(100, "ab"), (150, "abc")]
    (List.Chain'.cons (by norm_num) (List.Chain'.cons (by norm_num) (List.chain'_singleton _)))
  simpa using h

/-- Helper: a single controller transition preserves `shortInv` when the
event carries no query of length ≥ 2. -/
theorem shortInv_step (s : Sys) (e : Ev) (hs : shortInv s) (he : shortEv e = true) :
    shortInv (step s e) := by
  obtain ⟨⟨vis, q0, res, srch, sel⟩, tmr, pend, nid, lg, al⟩ := s
  obtain ⟨hres, hpend, hsearch, hq, htimer, hlog⟩ := hs
  cases hres; cases hpend; cases hsearch
  cases e with
  | input q =>
    have hql : q.length < 2 := by simpa [shortEv] using he
    by_cases h1 : q = q0 <;> by_cases h2 : jsTrim q = "" <;>
      simp_all [step, queryChange, shortInv]
  | timer =>
    rcases tmr with _ | cq
    · simp_all [step, fireTimer, shortInv]
    · have hcq : cq.length < 2 := htimer cq rfl
      simp_all [step, fireTimer, shortInv]
  | complete id resp =>
    simp_all [step, completeRequest, shortInv]
  | key k =>
    cases k <;> by_cases hv : vis = false <;>
      simp_all [step, handleKeyDown, shortInv]
  | toggle =>
    by_cases h0 : q0 = "" <;> simp_all [step, toggleVisibility, shortInv]

/-- Helper: `shortInv` is carried along any run of short-query events. -/
theorem shortInv_run (evs : List Ev) : ∀ s : Sys, shortInv s →
    (∀ e ∈ evs, shortEv e = true) → shortInv (run s evs) := by
  induction evs with
  | nil => intro s hs _; exact hs
  | cons e evs ih =>
    intro s hs he
    have h1 : shortEv e = true := he e (List.mem_cons_self e evs)
    have h2 : ∀ e' ∈ evs, shortEv e' = true := fun e' he' => he e' (List.mem_cons_of_mem e he')
    exact ih (step s e) (shortInv_step s e hs h1) h2

/-- C6: along any run of the controller in which every query edit has length
less than 2, the engine is never invoked (`search` never appears in the log),
`results` stays empty, no search is outstanding, and the overlay renders
neither a result list nor the "no results" row — it stays in its open-empty
appearance. -/
theorem short_queries_issue_no_request (evs : List Ev)
    (h : ∀ e ∈ evs, shortEv e = true) :
    (run initSys evs).ov.results = [] ∧
    (∀ op ∈ (run initSys evs).log, op.isSearch = false) ∧
    (run initSys evs).ov.isSearching = false ∧
    showsResults (run initSys evs) = false ∧
    showsNoMatch (run initSys evs) = false := by
  have hinv : shortInv (run initSys evs) :=
    shortInv_run evs initSys
      (by refine ⟨rfl, rfl, rfl, by decide, ?_, ?_⟩
          · intro q hq; simp [initSys] at hq
          · intro op hop; simp [initSys] at hop) h
  obtain ⟨hres, hpend, hsearch, hq, htimer, hlog⟩ := hinv
  refine ⟨hres, hlog, hsearch, ?_, ?_⟩
  · simp [showsResults, hres]
  · simp [showsNoMatch, hres, hsearch]
    omega

/-- Closed witness for `short_queries_issue_no_request`: open the overlay,
type the single character `"a"`, and let the debounce timer mature. -/
theorem short_queries_issue_no_request_witness :
    (run initSys [Ev.toggle, Ev.input "a", Ev.timer]).ov.results = [] ∧
    (∀ op ∈ (run initSys [Ev.toggle, Ev.input "a", Ev.timer]).log, op.isSearch = false) ∧
    (run initSys [Ev.toggle, Ev.input "a", Ev.timer]).ov.isSearching = false ∧
    showsResults (run initSys [Ev.toggle, Ev.input "a", Ev.timer]) = false ∧
    showsNoMatch (run initSys [Ev.toggle, Ev.input "a", Ev.timer]) = false :=
  short_queries_issue_no_request [Ev.toggle, Ev.input "a", Ev.timer]
    (by decide)

/-- C7: activation routes by kind — `handleResultClick` invokes exactly one
external operation, namely `launch_app(path)` for a result of kind `app` and
`open_path(path)` for kinds `file` and `folder`; in particular it never
invokes the `search` operation (and the `open`/`launch` choice is exhaustive
over the three kinds). -/
theorem activation_routes_by_kind (s : Sys) (r : SearchResult) (ok : Bool) :
    (handleResultClick s r ok).log = s.log ++ [activationOp r] ∧
    (r.type = FileKind.app → activationOp r = ExternalOp.launchApp r.path) ∧
    ((r.type = FileKind.file ∨ r.type = FileKind.folder) →
      activationOp r = ExternalOp.openPath r.path) ∧
    (∀ q, activationOp r ≠ ExternalOp.search q) := by
  obtain ⟨p, n, k, sc⟩ := r
  cases k <;> cases ok <;> simp [handleResultClick, activationOp]

/-- Closed witness for `activation_routes_by_kind` at a concrete file
result. -/
theorem activation_routes_by_kind_witness :
    (handleResultClick initSys rA true).log = initSys.log ++ [activationOp rA] ∧
    (rA.type = FileKind.app → activationOp rA = ExternalOp.launchApp rA.path) ∧
    ((rA.type = FileKind.file ∨ rA.type = FileKind.folder) →
      activationOp rA = ExternalOp.openPath rA.path) ∧
    (∀ q, activationOp rA ≠ ExternalOp.search q) :=
  activation_routes_by_kind initSys rA true

/-- C8: a failed activation is atomic with respect to the overlay state — the
attempted operation is logged and one failure `alert` is surfaced, but
`OverlayState` (visibility, query, results, selection, searching flag) is
exactly what it was, so the overlay stays open and the user may retry. -/
theorem activation_failure_atomic (s : Sys) (r : SearchResult) :
    (handleResultClick s r false).ov = s.ov ∧
    (handleResultClick s r false).alerts = s.alerts + 1 ∧
    (handleResultClick s r false).ov.isVisible = s.ov.isVisible ∧
    (handleResultClick s r false).log = s.log ++ [activationOp r] := by
  refine ⟨rfl, rfl, rfl, rfl⟩

/-- C9, counterexample: a present score of 0 renders no label — the JSX
truthiness test `result.score && …` treats the number 0 as absent, whereas
the claim requires the label `0%` (`specScoreLabel`, the claim's reading,
yields `some 0` there). -/
theorem zero_score_renders_no_label :
    scoreLabel (some 0) = none ∧ specScoreLabel (some 0) = some 0 := by
  constructor
  · simp [scoreLabel]
  · simp [specScoreLabel, jsRound]
    norm_num

/-- C9, amended: the label is `round(score*100)` with a `%` suffix and it is
rendered if and only if the score is present AND nonzero; an absent score —
and likewise a present score of exactly 0 — renders no label. -/
theorem score_label_iff_present_nonzero (sc : Option ℚ) :
    ((scoreLabel sc).isSome ↔ ∃ v, sc = some v ∧ v ≠ 0) ∧
    (∀ v : ℚ, sc = some v → v ≠ 0 → scoreLabel sc = some (jsRound (v * 100))) ∧
    (sc = none → scoreLabel sc = none) := by
  rcases sc with _ | v
  · simp [scoreLabel]
  · by_cases hv : v = 0 <;> simp [scoreLabel, hv]

/-- Closed witness for `score_label_iff_present_nonzero` at score 1
(displayed as `100%`). -/
theorem score_label_iff_present_nonzero_witness :
    scoreLabel (some 1) = some (jsRound (1 * 100)) :=
  (score_label_iff_present_nonzero (some 1)).2.1 1 rfl one_ne_zero

/-- C10: Enter is guarded — when the selection index is not a valid index
into `results` (negative, or at least the length, as reachable after a result
list shrinks), Enter changes nothing and invokes no external operation; the
activation dispatcher is never called with an out-of-bounds index. -/
theorem enter_guard_no_out_of_bounds (s : Sys) (ok : Bool)
    (h : ¬ (0 ≤ s.ov.selectedIndex ∧ s.ov.selectedIndex < (s.ov.results.length : Int))) :
    handleKeyDown s (Key.enter ok) = s ∧
    (handleKeyDown s (Key.enter ok)).log = s.log := by
  have hmain : handleKeyDown s (Key.enter ok) = s := by
    unfold handleKeyDown
    by_cases hv : s.ov.isVisible = false
    · simp [hv]
    · by_cases h0 : 0 ≤ s.ov.selectedIndex
      · have hlen : (s.ov.results.length : Int) ≤ s.ov.selectedIndex := by
          omega
        have hget : s.ov.results[s.ov.selectedIndex.toNat]? = none :=
          List.getElem?_eq_none (by omega)
        simp [hv, h0, hget]
      · simp [hv, h0]
  exact ⟨hmain, by rw [hmain]⟩

/-- Closed witness for `enter_guard_no_out_of_bounds` at a visible state with
an out-of-range selection index 5 over an empty result list. -/
theorem enter_guard_no_out_of_bounds_witness :
    handleKeyDown { initSys with ov := { initOverlay with isVisible := true, selectedIndex := 5 } }
        (Key.enter true)
      = { initSys with ov := { initOverlay with isVisible := true, selectedIndex := 5 } } ∧
    (handleKeyDown { initSys with ov := { initOverlay with isVisible := true, selectedIndex := 5 } }
        (Key.enter true)).log
      = { initSys with ov := { initOverlay with isVisible := true, selectedIndex := 5 } }.log :=
  enter_guard_no_out_of_bounds
    { initSys with ov := { initOverlay with isVisible := true, selectedIndex := 5 } }
    true (by decide)

end Speedy
